import Mathlib

/-!
Verification development for the `azureML` resource governor
(`app/mining_environment/scripts/resource_manager.py` and
`app/mining_environment/scripts/utils.py`).

The Python code is shallowly embedded: every adapter invocation and log
message that matters to the properties below is recorded as an `Event`,
Python dictionaries become association lists, numeric values become `ℚ`
(Python ints/floats), and Python `None` becomes `Option.none`.
-/

/-- External effects performed by the embedded code: adapter invocations
and log records.  `adjustCall key pid value` records that the
`SharedResourceManager.adjust_*` method matching `key` was invoked with the
given value. -/
inductive Event where
  | taskset : List Nat → Nat → Event
  | warn : Event
  | logInfo : Event
  | logError : Event
  | nvmlInit : Event
  | nvmlGetHandle : Nat → Event
  | nvmlSetPowerLimit : Int → Event
  | nvmlShutdown : Event
  | setGpuUsage : Nat → List ℚ → Event
  | adjustCall : String → Nat → ℚ → Event
deriving DecidableEq, Repr

/-- One pid's saved-original-limits dictionary: knob name ↦ saved value
(`none` models Python `None`). -/
abbrev Entry := List (String × Option ℚ)

/-- Embeds `SharedResourceManager.original_resource_limits`: pid ↦ per-knob
snapshot. -/
abbrev Limits := List (Nat × Entry)

/-- Python truthiness of a saved value: `None`, `0` and `0.0` are falsy. -/
def truthyVal : Option ℚ → Bool
  | none => false
  | some v => !(v == 0)

/-- Dictionary assignment `d[k] = v` (only lookups matter downstream). -/
def dictSet (e : Entry) (k : String) (v : Option ℚ) : Entry :=
  (k, v) :: e.filter (fun p => !(p.1 == k))

/-- Assignment `limits[pid] = e`. -/
def limSet (l : Limits) (pid : Nat) (e : Entry) : Limits :=
  (pid, e) :: l.filter (fun p => !(p.1 == pid))

/-- Deletion `del limits[pid]`. -/
def limDel (l : Limits) (pid : Nat) : Limits :=
  l.filter (fun p => !(p.1 == pid))

/-! ## utils.py -/

/-- Hard-coded GPU-worker name substrings of `MiningProcess.is_gpu_process`
(utils.py line 158). -/
def gpu_process_keywords : List String := ["llmsengen", "gpu_miner"]

/-- Embeds `MiningProcess.is_gpu_process` (utils.py lines 152-159): true iff some
keyword occurs as a substring of the lower-cased process name. -/
def is_gpu_process (name : String) : Bool :=
  gpu_process_keywords.any
    (fun kw => decide (kw.toList <:+: name.toList.map Char.toLower))

/-- Embeds `MiningProcess.get_gpu_usage` (utils.py lines 132-150).
Inputs: whether NVML initialised, the total and used GPU memory reported by
the `GPUManager` getters, and whether an exception escaped the memory
queries (the surrounding `try` turns it into `0.0`). -/
def get_gpu_usage (gpuInit : Bool) (total used : ℚ) (exc : Bool) : ℚ :=
  if !gpuInit then 0
  else if exc then 0
  else if total = 0 then 0
  else used / total * 100

/-- GPU part of `MiningProcess.update_resource_usage` (utils.py lines
194-198): the per-process figure is taken from `get_gpu_usage` only when
NVML is initialised and the name matches a GPU keyword; otherwise 0. -/
def update_gpu_usage (gpuInit : Bool) (name : String) (total used : ℚ)
    (exc : Bool) : ℚ :=
  if gpuInit && is_gpu_process name then get_gpu_usage gpuInit total used exc
  else 0

/-- Network-I/O fields of a `MiningProcess` (utils.py lines 123-124, 120). -/
structure NetState where
  prevSent : Option ℤ
  prevRecv : Option ℤ
  networkIo : ℚ
deriving DecidableEq, Repr

/-- Field initialisation in `MiningProcess.__init__` (utils.py lines
120-124): no previous counters, `network_io = 0.0`. -/
def initNetState : NetState := ⟨none, none, 0⟩

/-- Network-I/O part of `MiningProcess.update_resource_usage` (utils.py
lines 174-192).  `sample` is the per-NIC counter pair for the process's
interface (`none` when the interface is absent from
`psutil.net_io_counters(pernic=True)`). -/
def update_network_io (st : NetState) (sample : Option (ℤ × ℤ)) : NetState :=
  match sample with
  | some sr =>
      match st.prevSent, st.prevRecv with
      | some ps, some pr =>
          ⟨some sr.1, some sr.2,
            (((sr.1 - ps) + (sr.2 - pr) : ℤ) : ℚ) / (1024 * 1024)⟩
      | _, _ => ⟨some sr.1, some sr.2, 0⟩
  | none => ⟨st.prevSent, st.prevRecv, 0⟩

/-! ## resource_manager.py: assign_process_resources -/

/-- Embeds `assign_process_resources` (resource_manager.py lines 41-85).  Only the
`cpu_threads` key leads to an external call (`taskset`); the `memory`,
`cpu_freq` and `disk_io_limit_mbps` keys are log-only.  The requested
thread count is an integer, `cpuCount` is `psutil.cpu_count(logical=True)`. -/
def assign_process_resources (cpuCount : Nat) (pid : Nat)
    (resources : List (String × ℤ)) : List Event :=
  (match resources.lookup "cpu_threads" with
   | some n =>
       if n > (cpuCount : ℤ) ∨ n ≤ 0 then [.warn]
       else [.taskset (List.range n.toNat) pid, .logInfo]
   | none => []) ++
  (if (resources.lookup "memory").isSome then [.warn] else []) ++
  (if (resources.lookup "cpu_freq").isSome then [.warn] else []) ++
  (if (resources.lookup "disk_io_limit_mbps").isSome then [.warn] else [])

/-- Embeds `SharedResourceManager.adjust_cpu_threads` (resource_manager.py lines
98-104): delegates to `assign_process_resources` with a single
`cpu_threads` key and never touches `original_resource_limits`, which is
threaded through unchanged. -/
def adjust_cpu_threads (lim : Limits) (cpuCount pid : Nat) (n : ℤ) :
    List Event × Limits :=
  (assign_process_resources cpuCount pid [("cpu_threads", n)] ++ [.logInfo],
   lim)

/-! ## resource_manager.py: GPU adjustments -/

/-- Embeds `SharedResourceManager.adjust_gpu_usage` (resource_manager.py lines
114-124).  `stepOpt` is
`config["optimization_parameters"].get("gpu_power_adjustment_step", 10)`:
`none` when the key is absent, in which case the default `10` is used.
Each requested percentage is shifted by the step and clamped into
`[0, 100]` before `set_gpu_usage` is invoked. -/
def adjust_gpu_usage (stepOpt : Option ℚ) (pid : Nat) (vals : List ℚ) :
    List Event :=
  let step := stepOpt.getD 10
  [.setGpuUsage pid (vals.map (fun g => min (max (g + step) 0) 100)),
   .logInfo]

/-- The NVML call sequence issued by `adjust_gpu_power_limit` for a target
of `w` watts (resource_manager.py lines 163-166): the limit is passed in
milliwatts. -/
def nvmlSeq (w : ℤ) : List Event :=
  [.nvmlInit, .nvmlGetHandle 0, .nvmlSetPowerLimit (w * 1000),
   .nvmlShutdown]

/-- Embeds `SharedResourceManager.adjust_gpu_power_limit` (resource_manager.py
lines 160-169).  `failAt` is the number of NVML calls that succeed before
one raises (`failAt ≥ 4` means no device error; the `except` branch logs
and swallows).  The Python body has no `return` statement, so the value
returned to the caller is `None`, embedded as `Option.none : Option ℤ`. -/
def adjust_gpu_power_limit (pid : Nat) (w : ℤ) (failAt : Nat) :
    List Event × Option ℤ :=
  if failAt < 4 then ((nvmlSeq w).take failAt ++ [.logError], none)
  else (nvmlSeq w ++ [.logInfo], none)

/-! ## resource_manager.py: apply_cloak_strategy (original-limits capture) -/

/-- The knob keys for which `apply_cloak_strategy` snapshots a current
value (resource_manager.py lines 238-250; the four `if`/`elif` branches). -/
def savedKeys : List String :=
  ["cpu_freq", "gpu_power_limit", "network_bandwidth_limit_mbps",
   "ionice_class"]

/-- Modelled from the spec: the getters `get_current_cpu_frequency`,
`get_current_gpu_power_limit`, `get_current_network_bandwidth_limit` and
`get_current_ionice_class` are referenced by `apply_cloak_strategy` but
their definitions are not under `src/`; per spec §4.5 step 3 they "read
the current system value (via the OS adapter)".  They are modelled as one
oracle `sys : pid → knob name → current system value`. -/
def readCurrent (sys : Nat → String → ℚ) (pid : Nat) (key : String) : ℚ :=
  sys pid key

/-- Original-limits capture loop of `SharedResourceManager.apply_cloak_strategy`
(resource_manager.py lines 234-251): ensure `original_resource_limits[pid]`
exists, then for every adjustment key among `savedKeys` read the current
system value and assign it into the pid's snapshot — with no check whether
the key is already present. -/
def apply_cloak_strategy_save (lim : Limits) (pid : Nat)
    (adjustments : List (String × ℚ)) (sys : Nat → String → ℚ) : Limits :=
  let lim0 := if (lim.lookup pid).isSome then lim else limSet lim pid []
  adjustments.foldl
    (fun acc kv =>
      if kv.1 ∈ savedKeys then
        limSet acc pid
          (dictSet ((acc.lookup pid).getD []) kv.1
            (some (readCurrent sys pid kv.1)))
      else acc)
    lim0

/-! ## resource_manager.py: restore_resources -/

/-- The keys `restore_resources` attempts to restore, in source order
(resource_manager.py lines 275-303). -/
def restoreKeys : List String :=
  ["cpu_freq", "cpu_threads", "ram_allocation_mb", "gpu_power_limit",
   "ionice_class", "network_bandwidth_limit_mbps"]

/-- One `key = original_limits.get('key'); if key: self.adjust_*(...)`
block of `restore_resources`.  The matching `adjust_*` method is invoked
only when the saved value is truthy; the method catches every exception
internally (resource_manager.py lines 98-179), so a failing adapter —
`env key = false` — only produces an error log and never propagates. -/
def restoreOne (entry : Entry) (pid : Nat) (env : String → Bool)
    (key : String) : List Event :=
  match entry.lookup key with
  | some v =>
      if truthyVal v then
        .adjustCall key pid (v.getD 0) ::
          (if env key then [] else [.logError])
      else []
  | none => []

/-- Embeds `restore_resources` (resource_manager.py lines 263-310): read the
pid's snapshot (`if not original_limits:` — absent or empty — warns and
returns), run the six restore blocks in order, then unconditionally
`del self.original_resource_limits[pid]`. -/
def restore_resources (lim : Limits) (pid : Nat) (env : String → Bool) :
    List Event × Limits :=
  match lim.lookup pid with
  | none => ([.warn], lim)
  | some entry =>
      if entry.isEmpty then ([.warn], lim)
      else (restoreKeys.flatMap (restoreOne entry pid env), limDel lim pid)

/-! ## resource_manager.py: ResourceManager singleton -/

/-- Observable fields of a `ResourceManager` instance.  `initialized`
models the `_initialized` attribute; the constructor arguments are
abstracted to opaque tokens. -/
structure RMState where
  initialized : Bool
  config : Option Nat
  model_path : Option Nat
  logger : Option Nat
deriving DecidableEq, Repr

/-- Modelled from the spec: `BaseManager.__init__` (module `base_manager`
is not under `src/`).  The spec treats the supervisor's re-entrant
initialisation as a no-op (§5) and `ResourceManager.__init__` itself
records `config` and `logger` (resource_manager.py lines 333-335), so the
superclass constructor is modelled as contributing no observable field
change. -/
def baseManagerInit (st : RMState) (_c _lg : Nat) : RMState := st

/-- Embeds `ResourceManager.__init__` (resource_manager.py lines 327-363): call
the superclass constructor, then return early if `_initialized` is
already set; otherwise set it and populate every field. -/
def rmInit (st : RMState) (c mp lg : Nat) : RMState :=
  let st1 := baseManagerInit st c lg
  if st1.initialized then st1
  else ⟨true, some c, some mp, some lg⟩

/-- Embeds `ResourceManager.__new__` followed by `__init__` (resource_manager.py
lines 321-331): `inst` is the class attribute `_instance`; when it is
`none` a blank instance is created, otherwise the existing instance is
returned and `__init__` runs again on it.  Returns the instance the
caller receives and the updated `_instance`. -/
def rmConstruct (inst : Option RMState) (c mp lg : Nat) :
    RMState × Option RMState :=
  match inst with
  | none =>
      let st := rmInit ⟨false, none, none, none⟩ c mp lg
      (st, some st)
  | some st =>
      let st1 := rmInit st c mp lg
      (st1, some st1)

/-- Joint lookup `original_resource_limits[pid][key]` (outer `none` when
the pid has no snapshot). -/
def lookupKnob (lim : Limits) (pid : Nat) (key : String) :
    Option (Option ℚ) :=
  (lim.lookup pid).bind (fun e => e.lookup key)

/-! ## Concrete inputs used by the claim theorems -/

/-- Concrete pre-state for claim C2: pid 1001 already has a saved
original `cpu_freq` of 3000 (the system value at the first write). -/
def limC2 : Limits := [(1001, [("cpu_freq", some 3000)])]

/-- System oracle for claim C2: by the time of the second cloak
application the current (already-cloaked) frequency is 2000. -/
def sysC2 : Nat → String → ℚ := fun _ _ => 2000

/-- Concrete pre-state for claim C1: pid 1001's snapshot holds a
`cpu_freq` recorded as 0 (e.g. after a failed read) and an
`ionice_class` of 2. -/
def limC1 : Limits :=
  [(1001, [("cpu_freq", some 0), ("ionice_class", some 2)])]

/-- Adapter environment for claim C1: restoring the ionice class fails
(the failure is caught and logged inside `adjust_disk_io_priority`). -/
def envC1 : String → Bool := fun k => !(k == "ionice_class")

/-- Concrete input for claim C10: a requested GPU-usage vector of
`[100]` with the default adjustment step. -/
def valsC10 : List ℚ := [100]

/-! ## Helper lemmas -/

theorem lookup_limDel (l : Limits) (pid : Nat) :
    (limDel l pid).lookup pid = none := by
  induction l with
  | nil => rfl
  | cons hd tl ih =>
      obtain ⟨k, e⟩ := hd
      by_cases h : k = pid
      · have h1 : (k == pid) = true := by simp [h]
        simp only [limDel, List.filter_cons, h1, Bool.not_true,
          Bool.false_eq_true, if_false] at ih ⊢
        exact ih
      · have h1 : (k == pid) = false := by simp [h]
        have h2 : (pid == k) = false := by simp [Ne.symm h]
        simp only [limDel, List.filter_cons, h1, Bool.not_false, if_true,
          List.lookup, h2] at ih ⊢
        exact ih

theorem list_map_eq_self_iff {α : Type} (f : α → α) (l : List α) :
    l.map f = l ↔ ∀ x ∈ l, f x = x := by
  induction l with
  | nil => simp
  | cons hd tl ih => simp [ih]

theorem clamp_step10_eq_self_iff (x : ℚ) :
    min (max (x + 10) 0) 100 = x ↔ x = 100 := by
  constructor
  · intro h
    rcases le_total (x + 10) 0 with h0 | h0
    · rw [max_eq_right h0] at h
      simp only [min_eq_left (by norm_num : (0:ℚ) ≤ 100)] at h
      nlinarith
    · rw [max_eq_left h0] at h
      rcases le_total (x + 10) 100 with h1 | h1
      · rw [min_eq_left h1] at h; nlinarith
      · rw [min_eq_right h1] at h; linarith
  · intro h; subst h; norm_num

/-! ## Claim theorems -/

/-- C2: the claim says `apply_cloak_strategy` records the current system
value into `OriginalLimits[pid]` only when the knob key is not already
present, so an existing `OriginalLimits[p][k]` keeps the first-write
value.  The capture loop has no such presence check: evaluating it on a
pid whose snapshot already holds `cpu_freq = 3000` while the system is
currently at 2000 overwrites the saved original with 2000. -/
theorem c2_cloak_overwrites_saved_original :
    lookupKnob limC2 1001 "cpu_freq" = some (some 3000) ∧
    lookupKnob
        (apply_cloak_strategy_save limC2 1001 [("cpu_freq", 2200)] sysC2)
        1001 "cpu_freq" = some (some 2000) := by
  decide

/-- C3: requesting `n` CPU threads with `n ≤ 0` or `n` above the logical
core count makes no `taskset` call, logs a warning and leaves
`original_resource_limits` unchanged; a valid `n` pins the process to
cores `0..n-1`. -/
theorem c3_cpu_threads_bounds (lim : Limits) (cpuCount pid : Nat) (n : ℤ) :
    ((n ≤ 0 ∨ (cpuCount : ℤ) < n) →
      (adjust_cpu_threads lim cpuCount pid n).1 = [.warn, .logInfo] ∧
      (∀ cs p, Event.taskset cs p ∉ (adjust_cpu_threads lim cpuCount pid n).1) ∧
      (adjust_cpu_threads lim cpuCount pid n).2 = lim) ∧
    (0 < n → n ≤ (cpuCount : ℤ) →
      (adjust_cpu_threads lim cpuCount pid n).1
        = [.taskset (List.range n.toNat) pid, .logInfo, .logInfo]) := by
  constructor
  · intro h
    have hc : n > (cpuCount : ℤ) ∨ n ≤ 0 := by omega
    have htr : (adjust_cpu_threads lim cpuCount pid n).1 = [.warn, .logInfo] := by
      simp [adjust_cpu_threads, assign_process_resources, List.lookup, hc]
    refine ⟨htr, ?_, rfl⟩
    intro cs p hmem
    rw [htr] at hmem
    simp at hmem
  · intro h1 h2
    have hc : ¬(n > (cpuCount : ℤ) ∨ n ≤ 0) := by omega
    simp [adjust_cpu_threads, assign_process_resources, List.lookup, hc]

/-- C3 witness: thread count 0 on a 4-core host is rejected with only a
warning; thread count 2 pins to cores `{0, 1}`. -/
theorem c3_cpu_threads_bounds_witness :
    (adjust_cpu_threads [] 4 9 0).1 = [.warn, .logInfo] ∧
    (adjust_cpu_threads [] 4 9 0).2 = ([] : Limits) ∧
    (adjust_cpu_threads [] 4 9 2).1
      = [.taskset (List.range 2) 9, .logInfo, .logInfo] :=
  ⟨((c3_cpu_threads_bounds [] 4 9 0).1 (Or.inl (by norm_num))).1,
   ((c3_cpu_threads_bounds [] 4 9 0).1 (Or.inl (by norm_num))).2.2,
   (c3_cpu_threads_bounds [] 4 9 2).2 (by norm_num) (by norm_num)⟩

/-- C6: the claim says the GPU power-cap adapter returns the prior power
cap in watts.  For a device whose prior cap is 250 W, the embedded
`adjust_gpu_power_limit` (whose Python body has no `return` statement)
hands `None` back to the caller, not 250. -/
theorem c6_no_prior_cap_returned :
    (adjust_gpu_power_limit 1515 200 4).2 = none ∧
    (adjust_gpu_power_limit 1515 200 4).2 ≠ some 250 := by
  decide

/-- C6 (amended): every invocation of the GPU power-cap adapter with a
target of `w` watts and no device error performs the sequence
init → get device handle 0 → set power management limit to `w × 1000` mW →
shutdown, and returns no value (`None`) to its caller. -/
theorem c6_nvml_sequence (pid : Nat) (w : ℤ) (failAt : Nat)
    (h : 4 ≤ failAt) :
    adjust_gpu_power_limit pid w failAt
      = ([.nvmlInit, .nvmlGetHandle 0, .nvmlSetPowerLimit (w * 1000),
          .nvmlShutdown, .logInfo], none) := by
  unfold adjust_gpu_power_limit
  rw [if_neg (by omega)]
  rfl

/-- C6 witness: a 200 W target with a healthy device issues exactly the
four NVML calls with 200000 mW and returns nothing. -/
theorem c6_nvml_sequence_witness :
    adjust_gpu_power_limit 1515 200 4
      = ([.nvmlInit, .nvmlGetHandle 0, .nvmlSetPowerLimit (200 * 1000),
          .nvmlShutdown, .logInfo], none) :=
  c6_nvml_sequence 1515 200 4 (by norm_num)

/-- C7: constructing the supervisor a second time returns the very same
instance as the first construction, and the re-entrant `__init__` is a
no-op: the stored instance and every one of its fields are unchanged, for
any arguments passed to the second construction. -/
theorem c7_singleton_reentrant (c1 mp1 lg1 c2 mp2 lg2 : Nat) :
    (rmConstruct (rmConstruct none c1 mp1 lg1).2 c2 mp2 lg2).1
      = (rmConstruct none c1 mp1 lg1).1 ∧
    (rmConstruct (rmConstruct none c1 mp1 lg1).2 c2 mp2 lg2).2
      = (rmConstruct none c1 mp1 lg1).2 ∧
    (rmConstruct none c1 mp1 lg1).1
      = ⟨true, some c1, some mp1, some lg1⟩ := by
  refine ⟨?_, ?_, rfl⟩ <;> simp [rmConstruct, rmInit, baseManagerInit]

/-- C10: the claim says the requested target vector is never passed on
verbatim.  With the default step 10, a request of `[100]` is shifted to
`[110]` and clamped straight back to `[100]`: the setter receives exactly
the requested vector. -/
theorem c10_target_passed_verbatim :
    adjust_gpu_usage none 42 valsC10
      = [.setGpuUsage 42 valsC10, .logInfo] := by
  norm_num [adjust_gpu_usage, valsC10, min_def, max_def]

/-- C10 (amended): the vector handed to the GPU-usage setter has i-th
element `min(max(v[i] + step, 0), 100)` with the step defaulting to 10,
every element of it lies in `[0, 100]`, and (for the default step) it
coincides with the requested vector exactly when every requested element
already equals 100. -/
theorem c10_clamped_vector (stepOpt : Option ℚ) (pid : Nat)
    (vals : List ℚ) :
    adjust_gpu_usage stepOpt pid vals
      = [.setGpuUsage pid
          (vals.map (fun g => min (max (g + stepOpt.getD 10) 0) 100)),
         .logInfo] ∧
    (∀ x ∈ vals.map (fun g => min (max (g + stepOpt.getD 10) 0) 100),
        0 ≤ x ∧ x ≤ 100) ∧
    (stepOpt = none →
      (vals.map (fun g => min (max (g + (10:ℚ)) 0) 100) = vals ↔
        ∀ x ∈ vals, x = (100:ℚ))) := by
  refine ⟨rfl, ?_, ?_⟩
  · intro x hx
    rcases List.mem_map.mp hx with ⟨g, _, rfl⟩
    exact ⟨le_min (le_max_right _ _) (by norm_num), min_le_right _ _⟩
  · intro _
    rw [list_map_eq_self_iff]
    exact ⟨fun hall x hxv => (clamp_step10_eq_self_iff x).mp (hall x hxv),
      fun hall x hxv => (clamp_step10_eq_self_iff x).mpr (hall x hxv)⟩

/-- C10 witness: requesting `[95, -3]` with the default step yields the
clamped vector, whose first element is inside `[0, 100]`; and the clamp
fixes a vector all of whose elements are 100. -/
theorem c10_clamped_vector_witness :
    adjust_gpu_usage none 1 [95, -3]
      = [.setGpuUsage 1
          ([95, -3].map
            (fun g => min (max (g + (Option.getD none 10 : ℚ)) 0) 100)),
         .logInfo] ∧
    (0 ≤ min (max ((95:ℚ) + (Option.getD none 10 : ℚ)) 0) 100 ∧
      min (max ((95:ℚ) + (Option.getD none 10 : ℚ)) 0) 100 ≤ 100) ∧
    [(100:ℚ)].map (fun g => min (max (g + (10:ℚ)) 0) 100) = [100] :=
  ⟨(c10_clamped_vector none 1 [95, -3]).1,
   (c10_clamped_vector none 1 [95, -3]).2.1 _
     (List.mem_map_of_mem _ (by simp)),
   ((c10_clamped_vector none 1 [(100:ℚ)]).2.2 rfl).mpr
     (by intro x hx; simpa using hx)⟩

/-- Unfolding lemma: on a pid with a non-empty snapshot,
`restore_resources` runs the six restore blocks and deletes the entry. -/
theorem restore_resources_eq (lim : Limits) (pid : Nat)
    (env : String → Bool) (entry : Entry)
    (h1 : lim.lookup pid = some entry) (h2 : entry ≠ []) :
    restore_resources lim pid env
      = (restoreKeys.flatMap (restoreOne entry pid env), limDel lim pid) := by
  have hne : entry.isEmpty = false := by
    cases entry with
    | nil => exact absurd rfl h2
    | cons a l => rfl
  unfold restore_resources
  rw [h1]
  simp [hne]

/-- C1: the claim says `restore_resources` invokes the matching adapter
for each key present and removes the pid's entry only when every
restoration succeeded, keeping it intact on partial failure.  On a
snapshot `{cpu_freq: 0, ionice_class: 2}` whose ionice restoration fails,
the run makes no call at all for `cpu_freq`, the ionice restoration fails
(error logged), and the pid's entry is deleted anyway. -/
theorem c1_entry_deleted_despite_failure :
    envC1 "ionice_class" = false ∧
    (restore_resources limC1 1001 envC1).1
      = [.adjustCall "ionice_class" 1001 2, .logError] ∧
    ((restore_resources limC1 1001 envC1).2).lookup 1001 = none := by
  decide

/-- C1 (amended): for a pid with a non-empty OriginalLimits entry,
`restore_resources` invokes the matching adapter with the saved value for
each key whose saved value is truthy, and removes the pid's entry
unconditionally at the end — adapter failures are caught and logged
inside the adjusters, so partial failure does not keep the entry. -/
theorem c1_restore_always_deletes (lim : Limits) (pid : Nat)
    (env : String → Bool) (entry : Entry)
    (h1 : lim.lookup pid = some entry) (h2 : entry ≠ []) :
    ((restore_resources lim pid env).2).lookup pid = none ∧
    (∀ k v, k ∈ restoreKeys → entry.lookup k = some (some v) → v ≠ 0 →
      Event.adjustCall k pid v ∈ (restore_resources lim pid env).1) := by
  rw [restore_resources_eq lim pid env entry h1 h2]
  constructor
  · exact lookup_limDel lim pid
  · intro k v hk hkv hv
    refine List.mem_flatMap.mpr ⟨k, hk, ?_⟩
    unfold restoreOne
    rw [hkv]
    have ht : truthyVal (some v) = true := by simp [truthyVal, hv]
    simp [ht]

/-- C1 witness: a snapshot `{cpu_freq: 2500}` with all adapters healthy
gets its adapter call and its entry removed. -/
theorem c1_restore_always_deletes_witness :
    ((restore_resources [(5, [("cpu_freq", some 2500)])] 5
        (fun _ => true)).2).lookup 5 = none ∧
    Event.adjustCall "cpu_freq" 5 2500
      ∈ (restore_resources [(5, [("cpu_freq", some 2500)])] 5
          (fun _ => true)).1 :=
  ⟨(c1_restore_always_deletes [(5, [("cpu_freq", some 2500)])] 5
      (fun _ => true) [("cpu_freq", some 2500)] rfl (by simp)).1,
   (c1_restore_always_deletes [(5, [("cpu_freq", some 2500)])] 5
      (fun _ => true) [("cpu_freq", some 2500)] rfl (by simp)).2
      "cpu_freq" 2500 (by simp [restoreKeys]) rfl (by norm_num)⟩

/-- C8: a knob whose saved original value is falsy (`0` or `None`) gets
no adapter call from `restore_resources`, yet the pid's whole
OriginalLimits entry is still deleted at the end, losing the saved
value. -/
theorem c8_falsy_never_restored (lim : Limits) (pid : Nat)
    (env : String → Bool) (entry : Entry) (k : String) (v : Option ℚ)
    (h1 : lim.lookup pid = some entry) (h2 : entry ≠ [])
    (h3 : entry.lookup k = some v) (h4 : truthyVal v = false) :
    (∀ w : ℚ, Event.adjustCall k pid w ∉ (restore_resources lim pid env).1) ∧
    ((restore_resources lim pid env).2).lookup pid = none := by
  rw [restore_resources_eq lim pid env entry h1 h2]
  constructor
  · intro w hw
    rcases List.mem_flatMap.mp hw with ⟨k2, _, hmem⟩
    unfold restoreOne at hmem
    cases hl : entry.lookup k2 with
    | none => rw [hl] at hmem; simp at hmem
    | some v2 =>
        rw [hl] at hmem
        simp at hmem
        obtain ⟨ht, hk2, _⟩ := hmem
        subst hk2
        rw [h3] at hl
        injection hl with e4
        subst e4
        rw [h4] at ht
        exact Bool.false_ne_true ht
  · exact lookup_limDel lim pid

/-- C8 witness: an ionice class saved as 0 is never restored and the
entry is deleted. -/
theorem c8_falsy_never_restored_witness :
    Event.adjustCall "ionice_class" 7 0
      ∉ (restore_resources [(7, [("ionice_class", some 0)])] 7
          (fun _ => true)).1 ∧
    ((restore_resources [(7, [("ionice_class", some 0)])] 7
        (fun _ => true)).2).lookup 7 = none :=
  ⟨(c8_falsy_never_restored [(7, [("ionice_class", some 0)])] 7
      (fun _ => true) [("ionice_class", some 0)]
      "ionice_class" (some 0) rfl (by simp) rfl (by decide)).1 0,
   (c8_falsy_never_restored [(7, [("ionice_class", some 0)])] 7
      (fun _ => true) [("ionice_class", some 0)]
      "ionice_class" (some 0) rfl (by simp) rfl (by decide)).2⟩

/-- C4: when no per-PID GPU accounting exists, a GPU-eligible process's
usage is reported as `used_gpu_mem / total_gpu_mem × 100`, and every
process whose name matches no GPU-worker substring is reported as 0%
regardless of GPU state. -/
theorem c4_gpu_usage_reporting (gpuInit : Bool) (name : String)
    (total used : ℚ) (exc : Bool) :
    (is_gpu_process name = false →
      update_gpu_usage gpuInit name total used exc = 0) ∧
    (gpuInit = true → is_gpu_process name = true → exc = false →
      total ≠ 0 →
      update_gpu_usage gpuInit name total used exc = used / total * 100) := by
  constructor
  · intro h; simp [update_gpu_usage, h]
  · intro h1 h2 h3 h4
    subst h1; subst h3
    simp [update_gpu_usage, h2, get_gpu_usage, h4]

/-- C4 witness: "cpu_xmrig" matches no GPU keyword and reports 0%;
"GPU_Miner01" (matching `gpu_miner` case-insensitively) reports
2000/8000 × 100. -/
theorem c4_gpu_usage_reporting_witness :
    update_gpu_usage true "cpu_xmrig" 8000 2000 false = 0 ∧
    update_gpu_usage true "GPU_Miner01" 8000 2000 false
      = 2000 / 8000 * 100 :=
  ⟨(c4_gpu_usage_reporting true "cpu_xmrig" 8000 2000 false).1 (by decide),
   (c4_gpu_usage_reporting true "GPU_Miner01" 8000 2000 false).2 rfl
     (by decide) rfl (by norm_num)⟩

/-- C5: the first network-I/O sample after registration reports 0 MB;
every subsequent sample (previous counters present) reports
`(Δsent + Δrecv)` converted to MB. -/
theorem c5_network_io_delta (st : NetState) (s r ps pr : ℤ) :
    (update_network_io initNetState (some (s, r))).networkIo = 0 ∧
    (st.prevSent = some ps → st.prevRecv = some pr →
      (update_network_io st (some (s, r))).networkIo
        = (((s - ps) + (r - pr) : ℤ) : ℚ) / (1024 * 1024)) := by
  constructor
  · rfl
  · intro h1 h2
    obtain ⟨a, b, io⟩ := st
    dsimp at h1 h2
    subst h1; subst h2
    rfl

/-- C5 witness: the first sample reports 0; from previous counters
`(0, 0)` a sample of `(2097152, 1048576)` reports 3 MB worth of bytes
over 1024². -/
theorem c5_network_io_delta_witness :
    (update_network_io initNetState (some (5, 7))).networkIo = 0 ∧
    (update_network_io ⟨some 0, some 0, 0⟩
        (some (2097152, 1048576))).networkIo
      = (((2097152 - 0) + (1048576 - 0) : ℤ) : ℚ) / (1024 * 1024) :=
  ⟨(c5_network_io_delta initNetState 5 7 0 0).1,
   (c5_network_io_delta ⟨some 0, some 0, 0⟩ 2097152 1048576 0 0).2 rfl rfl⟩

/-- C9: `get_gpu_usage` returns 0 when the GPU manager is uninitialised,
when an exception occurs, or when the total GPU memory is 0; the quotient
is evaluated only with a nonzero denominator. -/
theorem c9_no_division_by_zero (gpuInit : Bool) (total used : ℚ)
    (exc : Bool) :
    (gpuInit = false → get_gpu_usage gpuInit total used exc = 0) ∧
    (exc = true → get_gpu_usage gpuInit total used exc = 0) ∧
    (total = 0 → get_gpu_usage gpuInit total used exc = 0) ∧
    (gpuInit = true → exc = false → total ≠ 0 →
      get_gpu_usage gpuInit total used exc = used / total * 100) := by
  refine ⟨?_, ?_, ?_, ?_⟩
  · intro h; subst h; rfl
  · intro h; subst h; cases gpuInit <;> simp [get_gpu_usage]
  · intro h; cases gpuInit <;> cases exc <;> simp [get_gpu_usage, h]
  · intro h1 h2 h3; subst h1; subst h2; simp [get_gpu_usage, h3]

/-- C9 witness: the three zero-returning guards and the quotient branch
at concrete memory figures. -/
theorem c9_no_division_by_zero_witness :
    get_gpu_usage false 10 5 false = 0 ∧
    get_gpu_usage true 10 5 true = 0 ∧
    get_gpu_usage true 0 5 false = 0 ∧
    get_gpu_usage true 10 5 false = 5 / 10 * 100 :=
  ⟨(c9_no_division_by_zero false 10 5 false).1 rfl,
   (c9_no_division_by_zero true 10 5 true).2.1 rfl,
   (c9_no_division_by_zero true 0 5 false).2.2.1 rfl,
   (c9_no_division_by_zero true 10 5 false).2.2.2 rfl rfl (by norm_num)⟩

